import Mathlib

/-!
Verification of the shapespeare_transformer repository's version gate,
config registry, training hook and corpus tokenization pipeline.

The Python sources (src/gpt/cli.py, src/gpt/train.py,
src/gpt/convert_wikipedia.py) are shallowly embedded below: each Python
function becomes a Lean function over an explicit state; exceptions become
an `Except`-style sum or an outcome inductive.
-/

namespace Gpt

/-! ## The semantic-version regex

Both `cli.check_for_repo_versioned_without_uncommited_changes` and
`train.get_run_name_from_git_tag` test tag names with
`re.match(r"v\d+\.\d+\.\d+", tag.name)`.  Python's `re.match` anchors at
the start of the string only: it succeeds whenever some PREFIX of the
string matches the pattern.  We embed this as a small deterministic
parser over the character list (backtracking is irrelevant here because
`\d+` is followed by a non-digit literal, so the greedy maximal-digit-run
parse is the only possible one). -/

/-- Drop the maximal run of leading decimal digits (the greedy `\d+`). -/
def dropDigits : List Char → List Char
  | [] => []
  | c :: rest => if c.isDigit then dropDigits rest else c :: rest

/-- Consume one-or-more decimal digits (`\d+`): succeeds iff the list
starts with a digit, returning the remainder after the maximal digit run. -/
def parseDigits1 : List Char → Option (List Char)
  | [] => none
  | c :: rest => if c.isDigit then some (dropDigits rest) else none

/-- Consume one literal character. -/
def parseChar (target : Char) : List Char → Option (List Char)
  | [] => none
  | c :: rest => if c = target then some rest else none

/-- `re.match(r"v\d+\.\d+\.\d+", ·)` on a character list: does the list
START WITH `v`, digits, `.`, digits, `.`, digits?  Trailing characters
after the third digit group are permitted, exactly as with `re.match`. -/
def semverMatchChars (l : List Char) : Bool :=
  ((((((parseChar 'v' l).bind
      parseDigits1).bind
      (parseChar '.')).bind
      parseDigits1).bind
      (parseChar '.')).bind
      parseDigits1).isSome

/-- Truthiness of `re.match(r"v\d+\.\d+\.\d+", s)`. -/
def semverMatch (s : String) : Bool := semverMatchChars s.data

/-- All characters are decimal digits. -/
def allDigits (l : List Char) : Bool := l.all Char.isDigit

/-! ## Repository state and the strict version gate (src/gpt/cli.py)

A `RepoState` abstracts what the gate inspects through GitPython:

* `isRepo`  — whether `git.Repo(search_parent_directories=True)` succeeds
  (false means it raises `InvalidGitRepositoryError`);
* `headValid` — `repo.head.is_valid()`;
* `tags` — `repo.tags`, each tag carrying its name and whether its commit
  hexsha equals the head commit's hexsha (`atHead`);
* `headContent`, `indexContent`, `worktreeContent` — abstract snapshots of
  the tracked content of the head commit, the index, and the working
  tree.  `repo.index.diff(None)` compares the INDEX against the WORKING
  TREE, so it is truthy iff `indexContent ≠ worktreeContent`. -/

structure GitTag where
  name : String
  atHead : Bool
deriving DecidableEq

structure RepoState where
  isRepo : Bool
  headValid : Bool
  tags : List GitTag
  headContent : Nat
  indexContent : Nat
  worktreeContent : Nat
deriving DecidableEq

/-- The exceptions `check_for_repo_versioned_without_uncommited_changes`
can raise, named after the spec's error taxonomy. -/
inductive GateError
  | notARepository
  | noVersionTag
  | uncommittedChanges
deriving DecidableEq

/-- Outcome of a call to the gate: either a normal return (Python returns
`False` early on `InvalidGitRepositoryError`, and `None` when it falls off
the end) or a raised exception. -/
inductive CheckOutcome
  | returned (value : Option Bool)
  | raised (e : GateError)
deriving DecidableEq

/-- The `for tag in repo.tags: if tag.commit.hexsha == head: if
re.match(...): break / else: raise` loop breaks iff some tag points at the
head commit AND its name matches the semver pattern. -/
def hasSemverTagAtHead (s : RepoState) : Bool :=
  s.tags.any fun t => t.atHead && semverMatch t.name

/-- Embedding of `cli.check_for_repo_versioned_without_uncommited_changes`:

1. `git.Repo(...)` raising `InvalidGitRepositoryError` is caught and the
   function returns `False`;
2. an invalid head raises the not-a-repository exception;
3. the tag loop's `else` raises the no-version-tag exception;
4. a truthy `repo.index.diff(None)` raises the uncommitted-changes
   exception;
5. otherwise the function falls off the end, returning `None`. -/
def check_for_repo_versioned_without_uncommited_changes (s : RepoState) : CheckOutcome :=
  if s.isRepo = false then .returned (some false)
  else if s.headValid = false then .raised .notARepository
  else if hasSemverTagAtHead s = false then .raised .noVersionTag
  else if s.indexContent ≠ s.worktreeContent then .raised .uncommittedChanges
  else .returned none

/-! ## Run-name derivation (src/gpt/train.py, get_run_name_from_git_tag) -/

/-- The exceptions `get_run_name_from_git_tag` can raise.
`invalidGitRepository` is GitPython's `InvalidGitRepositoryError`, which
this function (unlike the cli gate) does NOT catch; `assertionFailed` is
the `assert re.match(...)` failing on the first tag found at head. -/
inductive RunNameError
  | invalidGitRepository
  | notARepository
  | noVersionTag
  | assertionFailed
deriving DecidableEq

/-- Embedding of `train.get_run_name_from_git_tag`.  The `uuid4()` call is
modelled by the `nonce` argument (an externally supplied fresh value).
The Python loop returns on the FIRST tag whose commit is the head commit,
after asserting its name matches the semver pattern — it does not skip
non-matching tags the way the cli gate's loop does. -/
def get_run_name_from_git_tag (s : RepoState) (nonce : String) : Except RunNameError String :=
  if s.isRepo = false then .error .invalidGitRepository
  else if s.headValid = false then .error .notARepository
  else match s.tags.find? (fun t => t.atHead) with
    | some t =>
      if semverMatch t.name then .ok ("run-" ++ t.name ++ "-" ++ nonce)
      else .error .assertionFailed
    | none => .error .noVersionTag

/-! ## Config registry (src/gpt/cli.py, get_model)

The seven configuration value objects live in `gpt/config.py`, outside
the three embedded source files; their contents are irrelevant to name
resolution, so they are modelled as an opaque enumeration whose
constructors carry the attribute names `get_model` refers to. -/

inductive ModelConfig
  | gpt_baby
  | gpt3_small
  | gpt3_small_char
  | gpt3_small_char_one_cycle
  | gpt3_small_char_one_cycle_v2
  | gpt_mini_v0
  | gpt_mini_v1
deriving DecidableEq

/-- Per-character effect of Python's `config.replace("-", "_").lower()`
(ASCII lowering, which covers every registered key). -/
def pyCanonChar (c : Char) : Char := (if c = '-' then '_' else c).toLower

/-- `config.replace("-", "_").lower()`. -/
def pyCanon (s : String) : String := ⟨s.data.map pyCanonChar⟩

/-- The dict literal inside `get_model`. -/
def config_table : List (String × ModelConfig) :=
  [("baby", .gpt_baby),
   ("small", .gpt3_small),
   ("small_char", .gpt3_small_char),
   ("small_char_one_cycle", .gpt3_small_char_one_cycle),
   ("small_char_one_cycle_v2", .gpt3_small_char_one_cycle_v2),
   ("mini_v0", .gpt_mini_v0),
   ("mini_v1", .gpt_mini_v1)]

/-- Embedding of `cli.get_model`: canonicalise the name and index the
dict.  `none` is the dict's `KeyError`. -/
def get_model (config : String) : Option ModelConfig :=
  config_table.lookup (pyCanon config)

/-! ## The train command (src/gpt/cli.py, train) -/

/-- Outcome of the `train` cli command, up to the point where training is
launched: either the strict gate raised, or the unknown-config message was
printed and the command returned, or training was started with the
resolved config. -/
inductive TrainResult
  | gateRaised (e : GateError)
  | unknownConfig
  | launched (cfg : ModelConfig)
deriving DecidableEq

/-- Embedding of the control flow of `cli.train`: when `dirty` is false
the gate runs FIRST; only if it returns (with any value) is the config
name resolved, with `KeyError` turned into the graceful
unknown-config return. -/
def trainCmd (s : RepoState) (config : String) (dirty : Bool) : TrainResult :=
  if dirty = false then
    match check_for_repo_versioned_without_uncommited_changes s with
    | .raised e => .gateRaised e
    | .returned _ =>
      match get_model config with
      | none => .unknownConfig
      | some cfg => .launched cfg
  else
    match get_model config with
    | none => .unknownConfig
    | some cfg => .launched cfg

/-! ## Periodic generation-sampling hook
(src/gpt/train.py, LogGenerationPeriodically.on_train_batch_start)

`model.generate()` and `self.decoder(output)` may fail; the hook body has
no exception handler, so both are modelled as `Except` values threaded
through the body.  The emitted sample (some/none) is the observable
effect; `output.replace("\n", " ")` is the newline cleanup applied before
emission. -/

/-- Python's `s.replace("\n", " ")` (single-character replacement). -/
def pyReplaceNewline (s : String) : String :=
  ⟨s.data.map fun c => if c = '\n' then ' ' else c⟩

/-- Embedding of `LogGenerationPeriodically.on_train_batch_start`.
Arguments: the hook's `log_periodicity`, the trainer's `global_rank`, the
`batch_idx`, the result of `model.generate()` and the decoder
`self.decoder`.  Returns the emitted sample, or the propagated error. -/
def on_train_batch_start (log_periodicity global_rank batch_idx : Nat)
    (generate : Except String (List Nat))
    (decoder : List Nat → Except String String) :
    Except String (Option String) :=
  if batch_idx % log_periodicity == 0 && global_rank == 0 then
    match generate with
    | .error e => .error e
    | .ok ts =>
      match decoder ts with
      | .error e => .error e
      | .ok s => .ok (some (pyReplaceNewline s))
  else .ok none

/-! ## Corpus tokenization pipeline (src/gpt/convert_wikipedia.py) -/

/-- Embedding of the inner `wikipedia_batch_process` of
`tokenize_wikipedia_dataset`: tokenize each text of the batch and keep
the token sequence iff `min_block_size <= len(tokens)`.  Token tensors
are modelled as `List Nat`. -/
def wikipedia_batch_process (tokenize : String → List Nat) (min_block_size : Nat)
    (batch : List String) : List (List Nat) :=
  batch.filterMap fun text =>
    let tokens := tokenize text
    if min_block_size ≤ tokens.length then some tokens else none

/-- The tokenization stage of `prepare_data`, which wires
`tokenize_wikipedia_dataset` with `min_block_size := block_size + 1`.
The `datasets` library's batching (`ds.map(..., batched=True)`) applies
`wikipedia_batch_process` to a partition of the documents and
concatenates the results, which equals applying it to all documents. -/
def prepare_data_tokenized (tokenize : String → List Nat) (block_size : Nat)
    (docs : List String) : List (List Nat) :=
  wikipedia_batch_process tokenize (block_size + 1) docs

/-- The corpus-acquisition mode chosen by `prepare_data`. -/
inductive LoadMode
  | streamed (n : Nat)
  | bulk
deriving DecidableEq

/-- Python truthiness of `n_articles` (an optional count): `None` and `0`
are falsy. -/
def pyTruthy (n_articles : Option Nat) : Bool :=
  match n_articles with
  | some n => n != 0
  | none => false

/-- The branch `prepare_data` takes on `if n_articles:`. -/
def selectLoadMode (n_articles : Option Nat) : LoadMode :=
  match n_articles with
  | some n => if n != 0 then .streamed n else .bulk
  | none => .bulk

/-- Document acquisition in `prepare_data`: the truthy branch calls
`next(iter_ds)` exactly `n_articles` times (raising `StopIteration` if
the stream is exhausted early, modelled as an error); the falsy branch
bulk-loads the whole corpus split. -/
def acquireDocuments (n_articles : Option Nat) (corpus : List String) :
    Except String (List String) :=
  match n_articles with
  | some n =>
    if n != 0 then
      if n ≤ corpus.length then .ok (corpus.take n) else .error "StopIteration"
    else .ok corpus
  | none => .ok corpus

/-! ## Helper lemmas -/

/-- String concatenation is left-cancellative. -/
theorem string_append_left_cancel (p a b : String) (h : p ++ a = p ++ b) : a = b := by
  have hd : p.data ++ a.data = p.data ++ b.data := by
    have h2 := congrArg String.data h
    simpa [String.data_append] using h2
  exact String.ext (List.append_cancel_left hd)

/-! ## Claims about the version gate -/

/-- C1 counterexample: in a working directory that is not part of any
git repository, the strict gate catches `InvalidGitRepositoryError` and
returns `False` — it does not raise `NotARepository` and the run proceeds
past the gate. -/
theorem C1_counterexample :
    check_for_repo_versioned_without_uncommited_changes ⟨false, true, [], 0, 0, 0⟩ =
      .returned (some false) := rfl

/-- C1 (amended): when the working directory is not part of a git
repository, the strict gate returns `False` without raising, letting the
run proceed past the gate (the later run-name derivation then raises the
uncaught `InvalidGitRepositoryError`); the gate raises its
not-a-repository error only when a repository is found whose head
revision is invalid. -/
theorem C1_gate_not_a_repo (s : RepoState) (nonce : String) :
    (s.isRepo = false →
      check_for_repo_versioned_without_uncommited_changes s = .returned (some false) ∧
      get_run_name_from_git_tag s nonce = .error .invalidGitRepository) ∧
    (s.isRepo = true → s.headValid = false →
      check_for_repo_versioned_without_uncommited_changes s = .raised .notARepository) := by
  constructor
  · intro h
    constructor
    · simp [check_for_repo_versioned_without_uncommited_changes, h]
    · simp [get_run_name_from_git_tag, h]
  · intro h1 h2
    simp [check_for_repo_versioned_without_uncommited_changes, h1, h2]

/-- C1 witness: the amended theorem at a concrete non-repository state. -/
theorem C1_gate_not_a_repo_witness :
    check_for_repo_versioned_without_uncommited_changes ⟨false, true, [], 1, 2, 3⟩ =
      .returned (some false) ∧
    get_run_name_from_git_tag ⟨false, true, [], 1, 2, 3⟩ "nonce" =
      .error .invalidGitRepository :=
  (C1_gate_not_a_repo ⟨false, true, [], 1, 2, 3⟩ "nonce").1 rfl

/-- C2 counterexample: head content 0, index and working tree both 1 — a
fully staged modification, so the working tree differs from the head
revision — with a semver tag at head; the gate returns normally instead
of raising `UncommittedChanges`, because `repo.index.diff(None)` compares
the index against the working tree, which agree. -/
theorem C2_counterexample :
    check_for_repo_versioned_without_uncommited_changes
        ⟨true, true, [⟨"v1.2.3", true⟩], 0, 1, 1⟩ = .returned none ∧
    (1 : Nat) ≠ (0 : Nat) := ⟨rfl, by decide⟩

/-- C2 (amended): in a valid repository, the strict gate raises
`UncommittedChanges` iff a semver tag points at the head commit AND the
index differs from the working tree (unstaged tracked modifications).
Consequently a repository with no semver tag at head fails with
`NoVersionTag` first even when uncommitted changes are present, and
modifications that are fully staged (index equal to working tree) are
not detected at all. -/
theorem C2_uncommitted_changes_iff (s : RepoState)
    (h1 : s.isRepo = true) (h2 : s.headValid = true) :
    check_for_repo_versioned_without_uncommited_changes s = .raised .uncommittedChanges ↔
      hasSemverTagAtHead s = true ∧ s.indexContent ≠ s.worktreeContent := by
  cases ht : hasSemverTagAtHead s <;>
    by_cases hd : s.indexContent = s.worktreeContent <;>
      simp [check_for_repo_versioned_without_uncommited_changes, h1, h2, ht, hd]

/-- C2 witness: the amended theorem at a concrete state with a semver tag
at head and an unstaged modification. -/
theorem C2_uncommitted_changes_iff_witness :
    check_for_repo_versioned_without_uncommited_changes
        ⟨true, true, [⟨"v1.2.3", true⟩], 0, 0, 1⟩ = .raised .uncommittedChanges :=
  (C2_uncommitted_changes_iff ⟨true, true, [⟨"v1.2.3", true⟩], 0, 0, 1⟩ rfl rfl).mpr
    ⟨by decide, by decide⟩

/-- C3 counterexample: a clean head carrying the semver tag `v1.2.3` and
also the non-semver tag `dev` (which sorts first in `repo.tags`): the cli
gate passes, but the run-name derivation asserts on the FIRST tag found
at head (`dev`) and fails, so the strict run does not succeed. -/
theorem C3_counterexample :
    check_for_repo_versioned_without_uncommited_changes
        ⟨true, true, [⟨"dev", true⟩, ⟨"v1.2.3", true⟩], 0, 0, 0⟩ = .returned none ∧
    get_run_name_from_git_tag
        ⟨true, true, [⟨"dev", true⟩, ⟨"v1.2.3", true⟩], 0, 0, 0⟩ "n0" =
      .error .assertionFailed := ⟨rfl, rfl⟩

/-- C3 (amended): when the FIRST tag pointing at the head commit matches
the semver pattern (in particular when it is the only tag at head), the
run-name derivation succeeds with `run-<tag>-<nonce>`, and two
invocations with distinct nonces produce distinct run names. -/
theorem C3_run_name (s : RepoState) (t : GitTag) (n₁ n₂ : String)
    (hr : s.isRepo = true) (hv : s.headValid = true)
    (hf : s.tags.find? (fun tg => tg.atHead) = some t)
    (hm : semverMatch t.name = true) :
    get_run_name_from_git_tag s n₁ = .ok ("run-" ++ t.name ++ "-" ++ n₁) ∧
    (n₁ ≠ n₂ → get_run_name_from_git_tag s n₁ ≠ get_run_name_from_git_tag s n₂) := by
  have h1 : get_run_name_from_git_tag s n₁ = .ok ("run-" ++ t.name ++ "-" ++ n₁) := by
    simp [get_run_name_from_git_tag, hr, hv, hf, hm]
  have h2 : get_run_name_from_git_tag s n₂ = .ok ("run-" ++ t.name ++ "-" ++ n₂) := by
    simp [get_run_name_from_git_tag, hr, hv, hf, hm]
  refine ⟨h1, fun hne heq => hne ?_⟩
  rw [h1, h2] at heq
  have h3 : "run-" ++ t.name ++ "-" ++ n₁ = "run-" ++ t.name ++ "-" ++ n₂ :=
    Except.ok.inj heq
  exact string_append_left_cancel ("run-" ++ t.name ++ "-") n₁ n₂ h3

/-- C3 witness: the amended theorem at a concrete state whose only tag at
head is `v1.2.3`, with two distinct nonces. -/
theorem C3_run_name_witness :
    get_run_name_from_git_tag ⟨true, true, [⟨"v1.2.3", true⟩], 0, 0, 0⟩ "nonceA" =
      .ok ("run-" ++ "v1.2.3" ++ "-" ++ "nonceA") ∧
    get_run_name_from_git_tag ⟨true, true, [⟨"v1.2.3", true⟩], 0, 0, 0⟩ "nonceA" ≠
      get_run_name_from_git_tag ⟨true, true, [⟨"v1.2.3", true⟩], 0, 0, 0⟩ "nonceB" := by
  have h := C3_run_name ⟨true, true, [⟨"v1.2.3", true⟩], 0, 0, 0⟩ ⟨"v1.2.3", true⟩
    "nonceA" "nonceB" rfl rfl rfl (by decide)
  exact ⟨h.1, h.2 (by decide)⟩

/-! ## Claims about the sampling hook -/

/-- C4 counterexample: at a sampling step (batch 0, rank 0), a failing
`model.generate()` propagates out of `on_train_batch_start` unchanged —
the hook body has no exception handler, so the failure is not caught and
aborts the training step it is attached to. -/
theorem C4_counterexample :
    on_train_batch_start 100 0 0 (.error "sampling failed") (fun _ => .ok "") =
      .error "sampling failed" := rfl

/-- C4 (amended): a failure raised inside the periodic sampling hook at a
sampling step (generation failure, or decoding failure) is NOT caught: it
propagates out of `on_train_batch_start` to the training step the hook is
attached to.  Only non-sampling steps are unaffected, because the hook
body does not run there. -/
theorem C4_hook_propagates (p rank idx : Nat) (e : String)
    (gen : Except String (List Nat)) (dec : List Nat → Except String String)
    (ts : List Nat) (hs : idx % p = 0) (hrk : rank = 0) :
    (on_train_batch_start p rank idx (.error e) dec = .error e) ∧
    (gen = .ok ts → dec ts = .error e →
      on_train_batch_start p rank idx gen dec = .error e) := by
  subst hrk
  constructor
  · simp [on_train_batch_start, hs]
  · intro hg hd
    subst hg
    simp [on_train_batch_start, hs, hd]

/-- C4 witness: the amended theorem at a concrete sampling step. -/
theorem C4_hook_propagates_witness :
    on_train_batch_start 7 0 14 (.error "gen boom") (fun _ => .ok "x") =
      .error "gen boom" :=
  (C4_hook_propagates 7 0 14 "gen boom" (.ok []) (fun _ => .ok "x") []
    (by decide) rfl).1

/-- C9: given a successful generation and decode, the hook emits the
decoded, newline-cleaned sample exactly at the start of batches whose
index is a multiple of `log_periodicity` on global rank 0, and emits
nothing on every other batch index or on any non-zero rank. -/
theorem C9_hook_emission (p rank idx : Nat) (ts : List Nat) (s : String)
    (dec : List Nat → Except String String)
    (_hp : 0 < p) (hdec : dec ts = .ok s) :
    (p ∣ idx ∧ rank = 0 →
      on_train_batch_start p rank idx (.ok ts) dec = .ok (some (pyReplaceNewline s))) ∧
    (on_train_batch_start p rank idx (.ok ts) dec = .ok none ↔ ¬(p ∣ idx ∧ rank = 0)) := by
  have hdvd : (idx % p == 0) = true ↔ p ∣ idx := by
    simp [Nat.dvd_iff_mod_eq_zero]
  by_cases hc : p ∣ idx ∧ rank = 0
  · obtain ⟨hc1, hc2⟩ := hc
    have hm : (idx % p == 0) = true := hdvd.mpr hc1
    subst hc2
    simp [on_train_batch_start, hm, hdec, hc1]
  · have hm : (idx % p == 0 && rank == 0) = false := by
      rw [Bool.and_eq_false_iff]
      by_cases h1 : p ∣ idx
      · right
        have h2 : rank ≠ 0 := fun h => hc ⟨h1, h⟩
        simp [h2]
      · left
        rw [Nat.dvd_iff_mod_eq_zero] at h1
        simp only [beq_eq_false_iff_ne, ne_eq]
        exact h1
    simp [on_train_batch_start, hm, hc]

/-- C9 witness: the theorem at a sampling step (period 3, batch 6, rank
0) and a non-sampling step is covered by the iff applied at rank 1. -/
theorem C9_hook_emission_witness :
    on_train_batch_start 3 0 6 (.ok [1, 2]) (fun _ => .ok "ab\ncd") =
      .ok (some (pyReplaceNewline "ab\ncd")) :=
  (C9_hook_emission 3 0 6 [1, 2] "ab\ncd" (fun _ => .ok "ab\ncd")
    (by decide) rfl).1 ⟨by decide, rfl⟩

/-! ## Claims about the train command -/

/-- C5 counterexample: with an unknown config name and a repository state
the gate rejects (valid head, no tag), the strict `train` command aborts
with the gate error; the unknown-config message is never produced, so the
graceful unknown-config return does NOT happen for every repository
state. -/
theorem C5_counterexample :
    get_model "bogus" = none ∧
    trainCmd ⟨true, true, [], 0, 0, 0⟩ "bogus" false = .gateRaised .noVersionTag :=
  ⟨rfl, rfl⟩

/-- C5 (amended): an unknown config name yields the printed error and the
graceful no-op return when `--dirty` is set, or when the strict gate
returns without raising; but the gate runs BEFORE config resolution, so
when the gate raises, its error aborts the command first and the
unknown-config message is never reached. -/
theorem C5_unknown_config (s : RepoState) (config : String)
    (hu : get_model config = none) :
    (trainCmd s config true = .unknownConfig) ∧
    (∀ v, check_for_repo_versioned_without_uncommited_changes s = .returned v →
      trainCmd s config false = .unknownConfig) ∧
    (∀ e, check_for_repo_versioned_without_uncommited_changes s = .raised e →
      trainCmd s config false = .gateRaised e) := by
  refine ⟨?_, ?_, ?_⟩
  · simp [trainCmd, hu]
  · intro v hv
    simp [trainCmd, hv, hu]
  · intro e he
    simp [trainCmd, he]

/-- C5 witness: the amended theorem at a concrete unknown name in dirty
mode. -/
theorem C5_unknown_config_witness :
    trainCmd ⟨true, true, [], 0, 0, 0⟩ "bogus" true = .unknownConfig :=
  (C5_unknown_config ⟨true, true, [], 0, 0, 0⟩ "bogus" rfl).1

/-! ## Claims about the tokenization pipeline -/

/-- C6: a document's token sequence is retained by the tokenization stage
iff its length is at least `block_size + 1`; every retained sequence is
the full, unmodified encoding of one of the input documents, a qualifying
document's full encoding is always present, and a short document's
encoding is never present (dropped whole, never truncated). -/
theorem C6_length_filter (tokenize : String → List Nat) (block_size : Nat)
    (docs : List String) :
    (∀ t ∈ prepare_data_tokenized tokenize block_size docs,
      block_size + 1 ≤ t.length ∧ ∃ d ∈ docs, t = tokenize d) ∧
    (∀ d ∈ docs, block_size + 1 ≤ (tokenize d).length →
      tokenize d ∈ prepare_data_tokenized tokenize block_size docs) ∧
    (∀ d ∈ docs, (tokenize d).length < block_size + 1 →
      tokenize d ∉ prepare_data_tokenized tokenize block_size docs) := by
  refine ⟨?_, ?_, ?_⟩
  · intro t ht
    simp only [prepare_data_tokenized, wikipedia_batch_process, List.mem_filterMap] at ht
    obtain ⟨d, hd, hf⟩ := ht
    by_cases hlen : block_size + 1 ≤ (tokenize d).length
    · rw [if_pos hlen] at hf
      obtain rfl := Option.some.inj hf
      exact ⟨hlen, d, hd, rfl⟩
    · rw [if_neg hlen] at hf
      exact absurd hf (by simp)
  · intro d hd hlen
    simp only [prepare_data_tokenized, wikipedia_batch_process, List.mem_filterMap]
    exact ⟨d, hd, by rw [if_pos hlen]⟩
  · intro d hd hlen hmem
    simp only [prepare_data_tokenized, wikipedia_batch_process, List.mem_filterMap] at hmem
    obtain ⟨d', _, hf⟩ := hmem
    by_cases hlen' : block_size + 1 ≤ (tokenize d').length
    · rw [if_pos hlen'] at hf
      obtain heq := Option.some.inj hf
      rw [heq] at hlen'
      omega
    · rw [if_neg hlen'] at hf
      exact absurd hf (by simp)

/-- C6 witness: with character-code tokenization and block_size 2, the
4-character document is retained whole and the 2-character document
contributes nothing. -/
theorem C6_length_filter_witness :
    (fun s : String => s.data.map Char.toNat) "abcd" ∈
      prepare_data_tokenized (fun s : String => s.data.map Char.toNat) 2 ["abcd", "ab"] ∧
    (fun s : String => s.data.map Char.toNat) "ab" ∉
      prepare_data_tokenized (fun s : String => s.data.map Char.toNat) 2 ["abcd", "ab"] := by
  have h := C6_length_filter (fun s : String => s.data.map Char.toNat) 2 ["abcd", "ab"]
  exact ⟨h.2.1 "abcd" (by simp) (by decide), h.2.2 "ab" (by simp) (by decide)⟩

/-- C10: `prepare_data` selects the load branch by Python truthiness of
`n_articles`: the value 0 (like None) is falsy and selects the unbounded
bulk load of the full corpus split — not a stream of zero documents —
while every count of at least 1 selects the bounded streaming mode. -/
theorem C10_zero_articles_bulk (corpus : List String) (n : Nat) (hn : 1 ≤ n) :
    selectLoadMode (some 0) = .bulk ∧
    selectLoadMode none = .bulk ∧
    selectLoadMode (some n) = .streamed n ∧
    pyTruthy (some 0) = false ∧
    acquireDocuments (some 0) corpus = .ok corpus := by
  refine ⟨rfl, rfl, ?_, rfl, rfl⟩
  have hne : (n != 0) = true := by
    simp only [bne_iff_ne, ne_eq]
    omega
  simp [selectLoadMode, hne]

/-- C10 witness: the theorem at a one-document corpus and count 5. -/
theorem C10_zero_articles_bulk_witness :
    selectLoadMode (some 0) = .bulk ∧
    selectLoadMode none = .bulk ∧
    selectLoadMode (some 5) = .streamed 5 ∧
    pyTruthy (some 0) = false ∧
    acquireDocuments (some 0) ["doc"] = .ok ["doc"] :=
  C10_zero_articles_bulk ["doc"] 5 (by decide)

/-! ## Claims about the semver pattern -/

/-- Dropping leading digits ignores an all-digit prefix. -/
theorem dropDigits_append (a r : List Char) (h : allDigits a = true) :
    dropDigits (a ++ r) = dropDigits r := by
  induction a with
  | nil => rfl
  | cons c a ih =>
    simp only [allDigits, List.all_cons, Bool.and_eq_true] at h
    obtain ⟨hc, ha⟩ := h
    simpa [dropDigits, hc] using ih (by simpa [allDigits] using ha)

/-- A non-digit head stops the digit run immediately. -/
theorem dropDigits_cons_not_digit (c : Char) (r : List Char) (h : c.isDigit = false) :
    dropDigits (c :: r) = c :: r := by
  simp [dropDigits, h]

/-- Every list splits as its maximal all-digit prefix followed by
`dropDigits` of itself. -/
theorem exists_digits_decomp (l : List Char) :
    ∃ a, allDigits a = true ∧ l = a ++ dropDigits l := by
  induction l with
  | nil => exact ⟨[], rfl, rfl⟩
  | cons c rest ih =>
    by_cases hc : c.isDigit = true
    · obtain ⟨a, ha, he⟩ := ih
      refine ⟨c :: a, ?_, ?_⟩
      · simp only [allDigits, List.all_cons, Bool.and_eq_true]
        exact ⟨hc, by simpa [allDigits] using ha⟩
      · have hd : dropDigits (c :: rest) = dropDigits rest := by
          simp [dropDigits, hc]
        rw [hd, List.cons_append, ← he]
    · have hc' : c.isDigit = false := by simpa using hc
      refine ⟨[], rfl, ?_⟩
      rw [dropDigits_cons_not_digit c rest hc', List.nil_append]

/-- A successful `\d+` parse consumed a nonempty all-digit prefix. -/
theorem parseDigits1_eq_some (l r : List Char) (h : parseDigits1 l = some r) :
    ∃ a, a ≠ [] ∧ allDigits a = true ∧ l = a ++ r := by
  cases l with
  | nil => exact absurd h (by simp [parseDigits1])
  | cons c rest =>
    by_cases hc : c.isDigit = true
    · have hr : dropDigits rest = r := by
        simpa [parseDigits1, hc] using h
      obtain ⟨a, ha, he⟩ := exists_digits_decomp rest
      refine ⟨c :: a, by simp, ?_, ?_⟩
      · simp only [allDigits, List.all_cons, Bool.and_eq_true]
        exact ⟨hc, by simpa [allDigits] using ha⟩
      · rw [← hr, List.cons_append, ← he]
    · have hc' : c.isDigit = false := by simpa using hc
      exact absurd h (by simp [parseDigits1, hc'])

/-- `\d+` succeeds on a nonempty all-digit prefix, consuming it together
with any digits that immediately follow. -/
theorem parseDigits1_append (a r : List Char) (hne : a ≠ []) (ha : allDigits a = true) :
    parseDigits1 (a ++ r) = some (dropDigits r) := by
  cases a with
  | nil => exact absurd rfl hne
  | cons c a =>
    simp only [allDigits, List.all_cons, Bool.and_eq_true] at ha
    obtain ⟨hc, ha⟩ := ha
    simp [parseDigits1, hc, dropDigits_append a r (by simpa [allDigits] using ha)]

/-- A successful literal-character parse pins down the head. -/
theorem parseChar_eq_some (target : Char) (l r : List Char)
    (h : parseChar target l = some r) : l = target :: r := by
  cases l with
  | nil => exact absurd h (by simp [parseChar])
  | cons c rest =>
    by_cases hc : c = target
    · subst hc
      have : rest = r := by simpa [parseChar] using h
      rw [this]
    · exact absurd h (by simp [parseChar, hc])

/-- C7 counterexample: the tag name `v1.2.3rc1` carries trailing
characters beyond the exact `v<major>.<minor>.<patch>` form, yet the
gate's `re.match` accepts it, because `re.match` only anchors at the
start of the string. -/
theorem C7_counterexample : semverMatch "v1.2.3rc1" = true := by decide

/-- C7 (amended): a tag name is accepted by the strict-mode gate's
pattern check iff it STARTS WITH `v` followed by three dot-separated
nonempty digit groups; arbitrary trailing characters after the third
group are also accepted (`re.match` anchors only at the start). -/
theorem C7_semver_prefix_iff (s : String) :
    semverMatch s = true ↔
      ∃ a b c rest : List Char,
        s.data = 'v' :: (a ++ '.' :: (b ++ '.' :: (c ++ rest))) ∧
        a ≠ [] ∧ allDigits a = true ∧ b ≠ [] ∧ allDigits b = true ∧
        c ≠ [] ∧ allDigits c = true := by
  constructor
  · intro h
    unfold semverMatch semverMatchChars at h
    cases hv : parseChar 'v' s.data with
    | none =>
      rw [hv] at h
      simp at h
    | some r0 =>
    rw [hv] at h
    simp only [Option.some_bind] at h
    cases h1 : parseDigits1 r0 with
    | none =>
      rw [h1] at h
      simp at h
    | some r1 =>
    rw [h1] at h
    simp only [Option.some_bind] at h
    cases h2 : parseChar '.' r1 with
    | none =>
      rw [h2] at h
      simp at h
    | some r2 =>
    rw [h2] at h
    simp only [Option.some_bind] at h
    cases h3 : parseDigits1 r2 with
    | none =>
      rw [h3] at h
      simp at h
    | some r3 =>
    rw [h3] at h
    simp only [Option.some_bind] at h
    cases h4 : parseChar '.' r3 with
    | none =>
      rw [h4] at h
      simp at h
    | some r4 =>
    rw [h4] at h
    simp only [Option.some_bind] at h
    cases h5 : parseDigits1 r4 with
    | none =>
      rw [h5] at h
      simp at h
    | some r5 =>
    obtain ⟨a, ha0, ha, hra⟩ := parseDigits1_eq_some r0 r1 h1
    obtain ⟨b, hb0, hb, hrb⟩ := parseDigits1_eq_some r2 r3 h3
    obtain ⟨c, hc0, hc, hrc⟩ := parseDigits1_eq_some r4 r5 h5
    have hv' := parseChar_eq_some 'v' s.data r0 hv
    have h2' := parseChar_eq_some '.' r1 r2 h2
    have h4' := parseChar_eq_some '.' r3 r4 h4
    refine ⟨a, b, c, r5, ?_, ha0, ha, hb0, hb, hc0, hc⟩
    rw [hv', hra, h2', hrb, h4', hrc]
  · rintro ⟨a, b, c, rest, hs, ha0, ha, hb0, hb, hc0, hc⟩
    have hdot : ('.' : Char).isDigit = false := by decide
    have e1 : ∀ X : List Char, parseChar 'v' ('v' :: X) = some X := fun X => by
      simp [parseChar]
    have e2 : ∀ X : List Char, parseChar '.' ('.' :: X) = some X := fun X => by
      simp [parseChar]
    unfold semverMatch semverMatchChars
    rw [hs, e1]
    simp only [Option.some_bind]
    rw [parseDigits1_append a ('.' :: (b ++ '.' :: (c ++ rest))) ha0 ha,
        dropDigits_cons_not_digit '.' _ hdot]
    simp only [Option.some_bind]
    rw [e2]
    simp only [Option.some_bind]
    rw [parseDigits1_append b ('.' :: (c ++ rest)) hb0 hb,
        dropDigits_cons_not_digit '.' _ hdot]
    simp only [Option.some_bind]
    rw [e2]
    simp only [Option.some_bind]
    rw [parseDigits1_append c rest hc0 hc]
    simp

/-- C7 witness: the characterization applied at `v10.2.33-rc`, a name
with two-digit groups and a trailing suffix, which the gate accepts. -/
theorem C7_semver_prefix_iff_witness : semverMatch "v10.2.33-rc" = true :=
  (C7_semver_prefix_iff "v10.2.33-rc").mpr
    ⟨['1', '0'], ['2'], ['3', '3'], ['-', 'r', 'c'], by decide, by decide,
      by decide, by decide, by decide, by decide, by decide⟩

/-! ## Claims about the config registry -/

/-- Two characters differ only in letter case, or are both separator
characters (`-`/`_`). -/
def charVariant (a b : Char) : Bool :=
  (a == b) ||
  (a.toLower == b.toLower && !(a == '-') && !(a == '_') && !(b == '-') && !(b == '_')) ||
  ((a == '-' || a == '_') && (b == '-' || b == '_'))

/-- Two character lists differ only in letter case or separator choice,
position by position. -/
def listVariant : List Char → List Char → Bool
  | [], [] => true
  | a :: as, b :: bs => charVariant a b && listVariant as bs
  | _, _ => false

/-- Characters that differ only in case or separator choice canonicalise
identically under `replace("-", "_").lower()`. -/
theorem charVariant_canon (a b : Char) (h : charVariant a b = true) :
    pyCanonChar a = pyCanonChar b := by
  simp only [charVariant, Bool.or_eq_true, Bool.and_eq_true, beq_iff_eq,
    Bool.not_eq_true', beq_eq_false_iff_ne, ne_eq] at h
  rcases h with (h | ⟨⟨⟨⟨hl, ha1⟩, ha2⟩, hb1⟩, hb2⟩) | ⟨ha, hb⟩
  · rw [h]
  · simp only [pyCanonChar, if_neg ha1, if_neg hb1]
    exact hl
  · rcases ha with ha | ha <;> rcases hb with hb | hb <;> subst ha <;> subst hb <;> rfl

/-- Lists that differ only in case or separator choice canonicalise
identically. -/
theorem listVariant_map (l₁ l₂ : List Char) (h : listVariant l₁ l₂ = true) :
    l₁.map pyCanonChar = l₂.map pyCanonChar := by
  induction l₁ generalizing l₂ with
  | nil =>
    cases l₂ with
    | nil => rfl
    | cons b bs => simp [listVariant] at h
  | cons a as ih =>
    cases l₂ with
    | nil => simp [listVariant] at h
    | cons b bs =>
      simp only [listVariant, Bool.and_eq_true] at h
      obtain ⟨h1, h2⟩ := h
      simp only [List.map_cons, charVariant_canon a b h1, ih bs h2]

/-- C8: config-name resolution is case- and separator-insensitive — any
two names that differ only in letter case or in `-` versus `_` resolve to
the same result, and in particular `Mini-V1`, `mini_v1` and `MINI_V1`
all resolve to the `gpt_mini_v1` configuration value. -/
theorem C8_resolve_insensitive :
    (∀ s t : String, listVariant s.data t.data = true → get_model s = get_model t) ∧
    get_model "Mini-V1" = some ModelConfig.gpt_mini_v1 ∧
    get_model "mini_v1" = some ModelConfig.gpt_mini_v1 ∧
    get_model "MINI_V1" = some ModelConfig.gpt_mini_v1 := by
  refine ⟨?_, by decide, by decide, by decide⟩
  intro s t h
  have hc : pyCanon s = pyCanon t :=
    congrArg String.mk (listVariant_map s.data t.data h)
  simp [get_model, hc]

/-- C8 witness: the insensitivity clause applied at the concrete pair
`Mini-V1` / `MINI_V1`. -/
theorem C8_resolve_insensitive_witness :
    get_model "Mini-V1" = get_model "MINI_V1" :=
  C8_resolve_insensitive.1 "Mini-V1" "MINI_V1" (by decide)

end Gpt
